import Mathlib

/-!
Verification of the Planet reactive decision engine (src/src/lib.rs).

The repository implements the `PlanetAI` trait for a planet: handlers for
Orchestrator messages (Sunray, InternalStateRequest), Explorer messages
(resource generation / combination / availability queries) and Asteroid
events, over a bank of binary energy cells and a single rocket slot.
The bank operations (`charge_cell`, `full_cell`, `build_rocket`,
`take_rocket`, `to_dummy`) live in the external `common_game` crate and are
modelled here from the specification (sections 3 and 4.1); the handler
logic is translated directly from `lib.rs`.
-/

namespace Planet

/-- Rocket-construction strategy, from `lib.rs` (`RocketStrategy`). -/
inductive RocketStrategy where
  | Disabled
  | Default
  | Safe
  | EmergencyReserve
deriving DecidableEq

/-- Basic resource kinds, from `common_game` (used by `lib.rs` matches). -/
inductive BasicResourceType where
  | Oxygen
  | Hydrogen
  | Carbon
  | Silicon
deriving DecidableEq

/-- Produced basic resources (payloads are opaque at this layer). -/
inductive BasicResource where
  | Oxygen
  | Hydrogen
  | Carbon
  | Silicon
deriving DecidableEq

/-- Modelled from the spec: a Sunray is an inbound energy unit; its content
is opaque to the bank (cells are binary), and a saturated bank returns it
unchanged as the leftover. -/
structure Sunray where
  energy : Nat
deriving DecidableEq

/-- Modelled from the spec: a Rocket is a one-shot artifact with no
observable structure at this layer. -/
inductive Rocket where
  | mk
deriving DecidableEq

/-- Modelled from the spec: the read-only snapshot produced by
`PlanetState::to_dummy` carries `id`, `charged_cells_count`, `has_rocket`. -/
structure DummyState where
  id : Nat
  charged_cells_count : Nat
  has_rocket : Bool
deriving DecidableEq

/-- Modelled from the spec: the Planet state owned by the handlers — an
ordered fixed bank of binary cells, the rocket slot, and the planet-type
flag consulted by `can_have_rocket()`. -/
structure PlanetState where
  id : Nat
  cells : List Bool
  has_rocket : Bool
  can_have_rocket : Bool
deriving DecidableEq

/-- Count of charged cells, as computed by
`PlanetCoreThinkingModel::charged_count` in `lib.rs` (iterate and count
`is_charged`). -/
def charged_count : List Bool → Nat
  | [] => 0
  | c :: cs => (if c then 1 else 0) + charged_count cs

/-- Modelled from the spec: `charge` scans cells in insertion order for the
first uncharged cell and charges it; returns `none` if all cells were
already charged (all-or-nothing). -/
def charge_list : List Bool → Option (List Bool)
  | [] => none
  | c :: cs =>
      if c then (charge_list cs).map (fun cs2 => c :: cs2)
      else some (true :: cs)

/-- Modelled from the spec: `full_cell` returns the index of the first
charged cell, or `none`. -/
def full_cell_idx : List Bool → Option Nat
  | [] => none
  | c :: cs => if c then some 0 else (full_cell_idx cs).map (fun i => i + 1)

/-- Modelled from the spec: `PlanetState::charge_cell(sunray)` charges the
first uncharged cell and returns no leftover; if all cells are charged it
returns the sunray unchanged and mutates nothing. -/
def PlanetState.charge_cell (s : PlanetState) (ray : Sunray) :
    Option Sunray × PlanetState :=
  match charge_list s.cells with
  | some cs => (none, { s with cells := cs })
  | none => (some ray, s)

/-- Modelled from the spec: `PlanetState::full_cell()` — index of the first
charged cell. -/
def PlanetState.full_cell (s : PlanetState) : Option Nat :=
  full_cell_idx s.cells

/-- Modelled from the spec: `PlanetState::build_rocket(i)` fails if the
planet type forbids rockets, a rocket already exists, or the targeted cell
is not charged; on success it empties the cell and fills the rocket slot. -/
def PlanetState.build_rocket (s : PlanetState) (i : Nat) : Option PlanetState :=
  if s.can_have_rocket = false then none
  else if s.has_rocket = true then none
  else if s.cells.getD i false = true then
    some { s with cells := s.cells.set i false, has_rocket := true }
  else none

/-- Modelled from the spec: `PlanetState::take_rocket()` empties the rocket
slot and returns its contents. -/
def PlanetState.take_rocket (s : PlanetState) : Option Rocket × PlanetState :=
  if s.has_rocket = true then (some Rocket.mk, { s with has_rocket := false })
  else (none, s)

/-- Modelled from the spec: `state.cell_mut(i).charge(ray)` charges the cell
at index `i` (used to recharge the cell vacated by a rocket build). -/
def PlanetState.cell_charge (s : PlanetState) (i : Nat) (_ray : Sunray) :
    PlanetState :=
  { s with cells := s.cells.set i true }

/-- Modelled from the spec: `PlanetState::to_dummy` snapshots id, the true
charged-cell count and the rocket flag. -/
def PlanetState.to_dummy (s : PlanetState) : DummyState :=
  { id := s.id
    charged_cells_count := charged_count s.cells
    has_rocket := s.has_rocket }

/-- Orchestrator-to-planet messages handled by `handle_orchestrator_msg`
(`OtherMsg` stands for the variants that fall into its catch-all arm). -/
inductive OrchestratorToPlanet where
  | Sunray (ray : Sunray)
  | InternalStateRequest
  | OtherMsg
deriving DecidableEq

/-- Planet-to-orchestrator replies produced by `handle_orchestrator_msg`. -/
inductive PlanetToOrchestrator where
  | SunrayAck (planet_id : Nat)
  | InternalStateResponse (planet_id : Nat) (planet_state : DummyState)
deriving DecidableEq

/-- Explorer-to-planet messages, from `common_game` as used in `lib.rs`
(the complex-resource payload of `CombineResourceRequest` is opaque here). -/
inductive ExplorerToPlanet where
  | SupportedResourceRequest (explorer_id : Nat)
  | SupportedCombinationRequest (explorer_id : Nat)
  | GenerateResourceRequest (explorer_id : Nat) (resource : BasicResourceType)
  | CombineResourceRequest (explorer_id : Nat) (payload : Nat)
  | AvailableEnergyCellRequest (explorer_id : Nat)
deriving DecidableEq

/-- Planet-to-explorer replies produced by `handle_explorer_msg`. -/
inductive PlanetToExplorer where
  | SupportedResourceResponse (resource_list : List BasicResourceType)
  | SupportedCombinationResponse (combination_list : List Nat)
  | GenerateResourceResponse (resource : Option BasicResource)
  | AvailableEnergyCellResponse (available_cells : Nat)
deriving DecidableEq

/-- The resource value of each basic kind. -/
def basic_of : BasicResourceType → BasicResource
  | BasicResourceType.Oxygen => BasicResource.Oxygen
  | BasicResourceType.Hydrogen => BasicResource.Hydrogen
  | BasicResourceType.Carbon => BasicResource.Carbon
  | BasicResourceType.Silicon => BasicResource.Silicon

/-- Modelled from the spec: the Generator is a pure function of a charged
cell that may fail; `success` abstracts whether `make_*` succeeds. On
success the consumed cell is emptied. -/
structure Generator where
  all_available_recipes : List BasicResourceType
  success : BasicResourceType → Bool

/-- Modelled from the spec: produce a basic resource of kind `t` from the
cell at index `i`, emptying it on success. -/
def Generator.make (g : Generator) (t : BasicResourceType) (s : PlanetState)
    (i : Nat) : Option BasicResource × PlanetState :=
  if g.success t then (some (basic_of t), { s with cells := s.cells.set i false })
  else (none, s)

/-- Modelled from the spec: `generator.make_oxygen(cell)`. -/
def Generator.make_oxygen (g : Generator) (s : PlanetState) (i : Nat) :
    Option BasicResource × PlanetState :=
  g.make BasicResourceType.Oxygen s i

/-- Modelled from the spec: `generator.make_hydrogen(cell)`. -/
def Generator.make_hydrogen (g : Generator) (s : PlanetState) (i : Nat) :
    Option BasicResource × PlanetState :=
  g.make BasicResourceType.Hydrogen s i

/-- Modelled from the spec: `generator.make_carbon(cell)`. -/
def Generator.make_carbon (g : Generator) (s : PlanetState) (i : Nat) :
    Option BasicResource × PlanetState :=
  g.make BasicResourceType.Carbon s i

/-- Modelled from the spec: `generator.make_silicon(cell)`. -/
def Generator.make_silicon (g : Generator) (s : PlanetState) (i : Nat) :
    Option BasicResource × PlanetState :=
  g.make BasicResourceType.Silicon s i

/-- Modelled from the spec: the Combinator collaborator; only its recipe
list is observable from `lib.rs` (this planet variant configures zero
combination recipes). -/
structure Combinator where
  all_available_recipes : List Nat

/-- The AI model from `lib.rs` (`PlanetCoreThinkingModel`). -/
structure PlanetCoreThinkingModel where
  basic_resource : BasicResourceType
  rocket_strategy : RocketStrategy
  running : Bool

/-- The strategy gate used inside the Sunray handler in `lib.rs`
(the `can_build` closure). -/
def can_build : RocketStrategy → Bool
  | RocketStrategy.Disabled => false
  | RocketStrategy.Default => false
  | RocketStrategy.Safe => true
  | RocketStrategy.EmergencyReserve => true

/-- `try_build_rocket` from `lib.rs`: build from the first fully charged
cell; `some index` on success, `none` on failure (state unchanged then). -/
def try_build_rocket (s : PlanetState) : Option Nat × PlanetState :=
  match s.full_cell with
  | none => (none, s)
  | some i =>
    match s.build_rocket i with
    | none => (none, s)
    | some s2 => (some i, s2)

/-- `handle_orchestrator_msg` from `lib.rs` (logging elided): Sunray charges
the bank, consults the strategy gate, possibly builds a rocket (recharging
the vacated cell with the leftover when the bank was saturated), and always
acks; InternalStateRequest replies with the dummy snapshot, masked by one
under EmergencyReserve; other messages fall to the catch-all `none`. -/
def handle_orchestrator_msg (ai : PlanetCoreThinkingModel) (s : PlanetState)
    (msg : OrchestratorToPlanet) : Option PlanetToOrchestrator × PlanetState :=
  match msg with
  | OrchestratorToPlanet.Sunray ray =>
    match s.charge_cell ray with
    | (none, s1) =>
      let s2 :=
        if s1.can_have_rocket && !s1.has_rocket && can_build ai.rocket_strategy
        then (try_build_rocket s1).2
        else s1
      (some (PlanetToOrchestrator.SunrayAck s2.id), s2)
    | (some leftover, s1) =>
      let s2 :=
        if s1.can_have_rocket && !s1.has_rocket && can_build ai.rocket_strategy
        then
          match try_build_rocket s1 with
          | (some i, sb) => sb.cell_charge i leftover
          | (none, sb) => sb
        else s1
      (some (PlanetToOrchestrator.SunrayAck s2.id), s2)
  | OrchestratorToPlanet.InternalStateRequest =>
    match ai.rocket_strategy with
    | RocketStrategy.EmergencyReserve =>
      let dummy0 := s.to_dummy
      let dummy :=
        { dummy0 with charged_cells_count := dummy0.charged_cells_count - 1 }
      (some (PlanetToOrchestrator.InternalStateResponse s.id dummy), s)
    | _ =>
      (some (PlanetToOrchestrator.InternalStateResponse s.id s.to_dummy), s)
  | OrchestratorToPlanet.OtherMsg => (none, s)

/-- `handle_explorer_msg` from `lib.rs` (logging elided). -/
def handle_explorer_msg (ai : PlanetCoreThinkingModel) (s : PlanetState)
    (generator : Generator) (combinator : Combinator) (msg : ExplorerToPlanet) :
    Option PlanetToExplorer × PlanetState :=
  match msg with
  | ExplorerToPlanet.SupportedResourceRequest _ =>
    (some (PlanetToExplorer.SupportedResourceResponse
        generator.all_available_recipes), s)
  | ExplorerToPlanet.SupportedCombinationRequest _ =>
    (some (PlanetToExplorer.SupportedCombinationResponse
        combinator.all_available_recipes), s)
  | ExplorerToPlanet.GenerateResourceRequest _ resource =>
    if ai.rocket_strategy = RocketStrategy.EmergencyReserve ∧
        charged_count s.cells ≤ 1 then
      (none, s)
    else
      match s.full_cell with
      | none => (none, s)
      | some i =>
        match ai.basic_resource with
        | BasicResourceType.Oxygen =>
          match resource with
          | BasicResourceType.Oxygen =>
            let r := generator.make_oxygen s i
            (some (PlanetToExplorer.GenerateResourceResponse r.1), r.2)
          | _ => (none, s)
        | BasicResourceType.Hydrogen =>
          match resource with
          | BasicResourceType.Hydrogen =>
            let r := generator.make_hydrogen s i
            (some (PlanetToExplorer.GenerateResourceResponse r.1), r.2)
          | _ => (none, s)
        | BasicResourceType.Carbon =>
          match resource with
          | BasicResourceType.Carbon =>
            let r := generator.make_carbon s i
            (some (PlanetToExplorer.GenerateResourceResponse r.1), r.2)
          | _ => (none, s)
        | BasicResourceType.Silicon =>
          match resource with
          | BasicResourceType.Silicon =>
            let r := generator.make_silicon s i
            (some (PlanetToExplorer.GenerateResourceResponse r.1), r.2)
          | _ => (none, s)
  | ExplorerToPlanet.CombineResourceRequest _ _ => (none, s)
  | ExplorerToPlanet.AvailableEnergyCellRequest _ =>
    let count := charged_count s.cells
    let available_cells :=
      match ai.rocket_strategy with
      | RocketStrategy.EmergencyReserve => count - 1
      | _ => count
    (some (PlanetToExplorer.AvailableEnergyCellResponse available_cells), s)

/-- `handle_asteroid` from `lib.rs` (logging elided): guarded by
`can_have_rocket`; Default attempts one build first; if no rocket exists the
payload is `none`; otherwise the rocket is taken and Safe/EmergencyReserve
attempt a rebuild before returning it. -/
def handle_asteroid (ai : PlanetCoreThinkingModel) (s : PlanetState) :
    Option Rocket × PlanetState :=
  if s.can_have_rocket = false then (none, s)
  else
    let s1 :=
      if ai.rocket_strategy = RocketStrategy.Default then (try_build_rocket s).2
      else s
    if s1.has_rocket = false then (none, s1)
    else
      let tr := s1.take_rocket
      let s3 :=
        if ai.rocket_strategy = RocketStrategy.Safe ∨
            ai.rocket_strategy = RocketStrategy.EmergencyReserve
        then (try_build_rocket tr.2).2
        else tr.2
      (tr.1, s3)

/-- One Sunray message sent through the orchestrator handler (the sunray
content is irrelevant to the binary bank). -/
def sendSunray (ai : PlanetCoreThinkingModel) (s : PlanetState) : PlanetState :=
  (handle_orchestrator_msg ai s (OrchestratorToPlanet.Sunray { energy := 1 })).2

/-- Iterate `sendSunray`. -/
def sendSunrays (ai : PlanetCoreThinkingModel) : Nat → PlanetState → PlanetState
  | 0, s => s
  | n + 1, s => sendSunrays ai n (sendSunray ai s)

/-! Basic bookkeeping lemmas about the bank operations. -/

theorem charge_cell_snd_id (s : PlanetState) (ray : Sunray) :
    ((s.charge_cell ray).2).id = s.id := by
  unfold PlanetState.charge_cell
  cases charge_list s.cells <;> rfl

theorem charge_cell_snd_has_rocket (s : PlanetState) (ray : Sunray) :
    ((s.charge_cell ray).2).has_rocket = s.has_rocket := by
  unfold PlanetState.charge_cell
  cases charge_list s.cells <;> rfl

theorem charge_cell_snd_can_have (s : PlanetState) (ray : Sunray) :
    ((s.charge_cell ray).2).can_have_rocket = s.can_have_rocket := by
  unfold PlanetState.charge_cell
  cases charge_list s.cells <;> rfl

theorem build_rocket_id (s : PlanetState) (i : Nat) (s2 : PlanetState)
    (h : s.build_rocket i = some s2) : s2.id = s.id := by
  unfold PlanetState.build_rocket at h
  split at h
  · exact absurd h (by simp)
  · split at h
    · exact absurd h (by simp)
    · split at h
      · cases h
        rfl
      · exact absurd h (by simp)

theorem try_build_rocket_snd_id (s : PlanetState) :
    ((try_build_rocket s).2).id = s.id := by
  unfold try_build_rocket
  cases hf : s.full_cell with
  | none => rfl
  | some i =>
    cases hb : s.build_rocket i with
    | none => simp [hb]
    | some s2 => simp [hb, build_rocket_id s i s2 hb]

theorem cell_charge_id (s : PlanetState) (i : Nat) (ray : Sunray) :
    (s.cell_charge i ray).id = s.id := rfl

theorem charge_list_none_iff (l : List Bool) :
    charge_list l = none ↔ ∀ c ∈ l, c = true := by
  induction l with
  | nil => simp [charge_list]
  | cons c cs ih =>
    cases c <;> simp [charge_list, ih]

theorem full_cell_idx_none_iff (l : List Bool) :
    full_cell_idx l = none ↔ charged_count l = 0 := by
  induction l with
  | nil => simp [full_cell_idx, charged_count]
  | cons c cs ih =>
    cases c <;> simp [full_cell_idx, charged_count, ih]

theorem full_cell_idx_isSome_of_charged (l : List Bool)
    (h : 1 ≤ charged_count l) : ∃ i, full_cell_idx l = some i := by
  cases hf : full_cell_idx l with
  | none =>
    rw [full_cell_idx_none_iff] at hf
    omega
  | some i => exact ⟨i, rfl⟩

theorem full_cell_idx_getD (l : List Bool) (i : Nat)
    (h : full_cell_idx l = some i) : l.getD i false = true := by
  induction l generalizing i with
  | nil => cases h
  | cons c cs ih =>
    cases c with
    | true =>
      simp [full_cell_idx] at h
      subst h
      rfl
    | false =>
      simp [full_cell_idx] at h
      obtain ⟨j, hj, hji⟩ := h
      subst hji
      simpa using ih j hj

theorem try_build_rocket_of_has_rocket (s : PlanetState)
    (h : s.has_rocket = true) : try_build_rocket s = (none, s) := by
  unfold try_build_rocket
  cases hf : s.full_cell with
  | none => rfl
  | some i =>
    unfold PlanetState.build_rocket
    cases hc : s.can_have_rocket <;> simp [h, hc]

theorem try_build_rocket_builds (s : PlanetState) (hc : s.can_have_rocket = true)
    (hr : s.has_rocket = false) (i : Nat) (hf : s.full_cell = some i) :
    try_build_rocket s =
      (some i, { s with cells := s.cells.set i false, has_rocket := true }) := by
  have hgd := full_cell_idx_getD s.cells i hf
  simp only [List.getD, List.get?_eq_getElem?] at hgd
  unfold try_build_rocket
  rw [hf]
  unfold PlanetState.build_rocket
  simp [hc, hr, hgd]

/-! Claim theorems. -/

/-- C8: handling `CombineResourceRequest` always yields no reply (`none`),
regardless of payload contents, for this planet variant (configured with
zero combination recipes); the state is untouched. -/
theorem c8_combine_always_rejected (ai : PlanetCoreThinkingModel)
    (s : PlanetState) (generator : Generator) (combinator : Combinator)
    (eid payload : Nat) :
    handle_explorer_msg ai s generator combinator
      (ExplorerToPlanet.CombineResourceRequest eid payload) = (none, s) := rfl

/-- C9: handling a Sunray message never fails and always produces exactly one
reply, a `SunrayAck` carrying the planet id, regardless of strategy, bank
fullness, or whether a rocket build was attempted or succeeded. -/
theorem c9_sunray_always_acks (ai : PlanetCoreThinkingModel) (s : PlanetState)
    (ray : Sunray) :
    (handle_orchestrator_msg ai s (OrchestratorToPlanet.Sunray ray)).1 =
      some (PlanetToOrchestrator.SunrayAck s.id) := by
  unfold handle_orchestrator_msg
  rcases h : s.charge_cell ray with ⟨lo, s1⟩
  have hid : s1.id = s.id := by
    have h2 := charge_cell_snd_id s ray
    rw [h] at h2
    exact h2
  cases lo with
  | none =>
    simp only [h]
    split
    · simp [try_build_rocket_snd_id, hid]
    · simp [hid]
  | some l =>
    simp only [h]
    split
    · rcases h2 : try_build_rocket s1 with ⟨oi, sb⟩
      have hid2 : sb.id = s1.id := by
        have h3 := try_build_rocket_snd_id s1
        rw [h2] at h3
        exact h3
      cases oi <;> simp [h2, PlanetState.cell_charge, hid2, hid]
    · simp [hid]

/-- C6: for every strategy except Safe and EmergencyReserve (that is,
Disabled and Default), handling one Sunray while the bank has at least one
free cell never produces a rocket: `has_rocket` remains false afterwards. -/
theorem c6_nonbuilding_strategies_never_build (ai : PlanetCoreThinkingModel)
    (s : PlanetState) (ray : Sunray)
    (hstrat : ai.rocket_strategy = RocketStrategy.Disabled ∨
      ai.rocket_strategy = RocketStrategy.Default)
    (hr : s.has_rocket = false)
    (hfree : charged_count s.cells < s.cells.length) :
    ((handle_orchestrator_msg ai s (OrchestratorToPlanet.Sunray ray)).2).has_rocket
      = false := by
  have hcb : can_build ai.rocket_strategy = false := by
    rcases hstrat with h | h <;> rw [h] <;> rfl
  unfold handle_orchestrator_msg
  rcases h : s.charge_cell ray with ⟨lo, s1⟩
  have hr1 : s1.has_rocket = false := by
    have h2 := charge_cell_snd_has_rocket s ray
    rw [h] at h2
    rw [h2, hr]
  cases lo <;> simp [h, hcb, hr1]

/-- C6 witness: under the Default strategy, one Sunray on a two-cell bank
with a free cell leaves the rocket slot empty. -/
theorem c6_witness :
    ((handle_orchestrator_msg
        ⟨BasicResourceType.Hydrogen, RocketStrategy.Default, true⟩
        ⟨1, [true, false], false, true⟩
        (OrchestratorToPlanet.Sunray ⟨1⟩)).2).has_rocket = false :=
  c6_nonbuilding_strategies_never_build
    ⟨BasicResourceType.Hydrogen, RocketStrategy.Default, true⟩
    ⟨1, [true, false], false, true⟩ ⟨1⟩ (Or.inr rfl) rfl (by decide)

/-- C5: under EmergencyReserve every outward-facing count report subtracts
exactly one from the true charged-cell count (stated for true count at least
one); with exactly one charged cell, `InternalStateRequest` reports
`charged_cells_count = 0` and `AvailableEnergyCellRequest` reports `0`;
under every other strategy the true count is reported unmasked. -/
theorem c5_emergency_reserve_masks_reports (ai : PlanetCoreThinkingModel)
    (s : PlanetState) (generator : Generator) (combinator : Combinator)
    (eid : Nat) :
    ((ai.rocket_strategy = RocketStrategy.EmergencyReserve →
        1 ≤ charged_count s.cells →
        (handle_orchestrator_msg ai s OrchestratorToPlanet.InternalStateRequest).1 =
          some (PlanetToOrchestrator.InternalStateResponse s.id
            { id := s.id, charged_cells_count := charged_count s.cells - 1,
              has_rocket := s.has_rocket })
        ∧ (handle_explorer_msg ai s generator combinator
            (ExplorerToPlanet.AvailableEnergyCellRequest eid)).1 =
            some (PlanetToExplorer.AvailableEnergyCellResponse
              (charged_count s.cells - 1)))
    ∧ (ai.rocket_strategy = RocketStrategy.EmergencyReserve →
        charged_count s.cells = 1 →
        (handle_orchestrator_msg ai s OrchestratorToPlanet.InternalStateRequest).1 =
          some (PlanetToOrchestrator.InternalStateResponse s.id
            { id := s.id, charged_cells_count := 0, has_rocket := s.has_rocket })
        ∧ (handle_explorer_msg ai s generator combinator
            (ExplorerToPlanet.AvailableEnergyCellRequest eid)).1 =
            some (PlanetToExplorer.AvailableEnergyCellResponse 0))
    ∧ (ai.rocket_strategy ≠ RocketStrategy.EmergencyReserve →
        (handle_orchestrator_msg ai s OrchestratorToPlanet.InternalStateRequest).1 =
          some (PlanetToOrchestrator.InternalStateResponse s.id s.to_dummy)
        ∧ (handle_explorer_msg ai s generator combinator
            (ExplorerToPlanet.AvailableEnergyCellRequest eid)).1 =
            some (PlanetToExplorer.AvailableEnergyCellResponse
              (charged_count s.cells)))) := by
  obtain ⟨br, strat, run⟩ := ai
  refine ⟨fun hER h1 => ?_, fun hER h1 => ?_, fun hNE => ?_⟩
  · cases strat <;>
      simp_all [handle_orchestrator_msg, handle_explorer_msg, PlanetState.to_dummy]
  · cases strat <;>
      simp_all [handle_orchestrator_msg, handle_explorer_msg, PlanetState.to_dummy]
  · cases strat <;>
      simp_all [handle_orchestrator_msg, handle_explorer_msg, PlanetState.to_dummy]

/-- C5 witness: EmergencyReserve planet with exactly one charged cell reports
a charged count of zero to the Orchestrator and zero available cells to an
Explorer. -/
theorem c5_witness :
    (handle_orchestrator_msg
        ⟨BasicResourceType.Hydrogen, RocketStrategy.EmergencyReserve, true⟩
        ⟨7, [true], false, true⟩ OrchestratorToPlanet.InternalStateRequest).1 =
      some (PlanetToOrchestrator.InternalStateResponse 7 ⟨7, 0, false⟩)
    ∧ (handle_explorer_msg
        ⟨BasicResourceType.Hydrogen, RocketStrategy.EmergencyReserve, true⟩
        ⟨7, [true], false, true⟩ ⟨[BasicResourceType.Hydrogen], fun _ => true⟩
        ⟨[]⟩ (ExplorerToPlanet.AvailableEnergyCellRequest 0)).1 =
      some (PlanetToExplorer.AvailableEnergyCellResponse 0) :=
  (c5_emergency_reserve_masks_reports
    ⟨BasicResourceType.Hydrogen, RocketStrategy.EmergencyReserve, true⟩
    ⟨7, [true], false, true⟩ ⟨[BasicResourceType.Hydrogen], fun _ => true⟩
    ⟨[]⟩ 0).2.1 rfl (by decide)

/-- C10: under EmergencyReserve the masking of reported counts never
underflows — the reported count equals the true charged count minus one when
the true count is at least one, and equals zero when the true count is zero
(saturating subtraction), for both the `InternalStateResponse` count and the
`AvailableEnergyCellResponse` count. -/
theorem c10_masking_never_underflows (ai : PlanetCoreThinkingModel)
    (s : PlanetState) (generator : Generator) (combinator : Combinator)
    (eid : Nat)
    (hER : ai.rocket_strategy = RocketStrategy.EmergencyReserve) :
    ((1 ≤ charged_count s.cells →
        (handle_orchestrator_msg ai s OrchestratorToPlanet.InternalStateRequest).1 =
          some (PlanetToOrchestrator.InternalStateResponse s.id
            { id := s.id, charged_cells_count := charged_count s.cells - 1,
              has_rocket := s.has_rocket })
        ∧ (handle_explorer_msg ai s generator combinator
            (ExplorerToPlanet.AvailableEnergyCellRequest eid)).1 =
            some (PlanetToExplorer.AvailableEnergyCellResponse
              (charged_count s.cells - 1)))
    ∧ (charged_count s.cells = 0 →
        (handle_orchestrator_msg ai s OrchestratorToPlanet.InternalStateRequest).1 =
          some (PlanetToOrchestrator.InternalStateResponse s.id
            { id := s.id, charged_cells_count := 0, has_rocket := s.has_rocket })
        ∧ (handle_explorer_msg ai s generator combinator
            (ExplorerToPlanet.AvailableEnergyCellRequest eid)).1 =
            some (PlanetToExplorer.AvailableEnergyCellResponse 0))) := by
  obtain ⟨br, strat, run⟩ := ai
  refine ⟨fun h1 => ?_, fun h0 => ?_⟩
  · cases strat <;>
      simp_all [handle_orchestrator_msg, handle_explorer_msg, PlanetState.to_dummy]
  · cases strat <;>
      simp_all [handle_orchestrator_msg, handle_explorer_msg, PlanetState.to_dummy]

/-- C10 witness: EmergencyReserve with an empty two-cell bank reports zero
(no underflow) to both audiences. -/
theorem c10_witness :
    (handle_orchestrator_msg
        ⟨BasicResourceType.Oxygen, RocketStrategy.EmergencyReserve, true⟩
        ⟨3, [false, false], false, true⟩
        OrchestratorToPlanet.InternalStateRequest).1 =
      some (PlanetToOrchestrator.InternalStateResponse 3 ⟨3, 0, false⟩)
    ∧ (handle_explorer_msg
        ⟨BasicResourceType.Oxygen, RocketStrategy.EmergencyReserve, true⟩
        ⟨3, [false, false], false, true⟩ ⟨[BasicResourceType.Oxygen], fun _ => false⟩
        ⟨[]⟩ (ExplorerToPlanet.AvailableEnergyCellRequest 4)).1 =
      some (PlanetToExplorer.AvailableEnergyCellResponse 0) :=
  (c10_masking_never_underflows
    ⟨BasicResourceType.Oxygen, RocketStrategy.EmergencyReserve, true⟩
    ⟨3, [false, false], false, true⟩ ⟨[BasicResourceType.Oxygen], fun _ => false⟩
    ⟨[]⟩ 4 rfl).2 (by decide)

/-- C2: `GenerateResourceRequest(t)` produces no reply if the strategy is
EmergencyReserve with true charged count at most one, or if no charged cell
is available, or if `t` differs from the planet's authorized basic resource;
otherwise it delegates to the Generator for exactly that resource kind and a
reply carrying the (optional) produced resource is always sent. -/
theorem c2_generate_resource_gating (ai : PlanetCoreThinkingModel)
    (s : PlanetState) (generator : Generator) (combinator : Combinator)
    (eid : Nat) (t : BasicResourceType) :
    ((ai.rocket_strategy = RocketStrategy.EmergencyReserve ∧
        charged_count s.cells ≤ 1 →
        handle_explorer_msg ai s generator combinator
          (ExplorerToPlanet.GenerateResourceRequest eid t) = (none, s))
    ∧ (s.full_cell = none →
        handle_explorer_msg ai s generator combinator
          (ExplorerToPlanet.GenerateResourceRequest eid t) = (none, s))
    ∧ (t ≠ ai.basic_resource →
        handle_explorer_msg ai s generator combinator
          (ExplorerToPlanet.GenerateResourceRequest eid t) = (none, s))
    ∧ (∀ i, ¬(ai.rocket_strategy = RocketStrategy.EmergencyReserve ∧
          charged_count s.cells ≤ 1) →
        s.full_cell = some i → t = ai.basic_resource →
        handle_explorer_msg ai s generator combinator
          (ExplorerToPlanet.GenerateResourceRequest eid t) =
          (some (PlanetToExplorer.GenerateResourceResponse
            (generator.make t s i).1), (generator.make t s i).2))) := by
  refine ⟨fun hgate => ?_, fun hfc => ?_, fun hne => ?_, fun i hgate hfc heq => ?_⟩
  · simp only [handle_explorer_msg]
    rw [if_pos hgate]
  · simp only [handle_explorer_msg]
    split
    · rfl
    · simp [hfc]
  · simp only [handle_explorer_msg]
    split
    · rfl
    · rcases hfc : s.full_cell with _ | i
      · simp [hfc]
      · cases hbr : ai.basic_resource <;> cases t <;> simp_all [hfc]
  · simp only [handle_explorer_msg]
    rw [if_neg hgate]
    subst heq
    cases hbr : ai.basic_resource <;>
      simp_all [hfc, Generator.make_oxygen, Generator.make_hydrogen,
        Generator.make_carbon, Generator.make_silicon]

/-- C2 witness: a Default-strategy Hydrogen planet with one charged cell
answers a matching request with the Generator's product and an emptied
cell. -/
theorem c2_witness :
    handle_explorer_msg ⟨BasicResourceType.Hydrogen, RocketStrategy.Default, true⟩
      ⟨7, [true], false, true⟩ ⟨[BasicResourceType.Hydrogen], fun _ => true⟩ ⟨[]⟩
      (ExplorerToPlanet.GenerateResourceRequest 0 BasicResourceType.Hydrogen) =
      (some (PlanetToExplorer.GenerateResourceResponse
        (some BasicResource.Hydrogen)), ⟨7, [false], false, true⟩) :=
  (c2_generate_resource_gating
    ⟨BasicResourceType.Hydrogen, RocketStrategy.Default, true⟩
    ⟨7, [true], false, true⟩ ⟨[BasicResourceType.Hydrogen], fun _ => true⟩ ⟨[]⟩
    0 BasicResourceType.Hydrogen).2.2.2 0 (by decide) rfl rfl

/-- C7 counterexample: an EmergencyReserve planet whose authorized resource
is Hydrogen, with exactly one charged cell, receives a matching
`GenerateResourceRequest` and produces no reply — refuting the claim that a
reply is produced whenever the authorized resource matches and at least one
cell is charged. -/
theorem c7_counterexample :
    (⟨BasicResourceType.Hydrogen, RocketStrategy.EmergencyReserve, true⟩ :
        PlanetCoreThinkingModel).basic_resource = BasicResourceType.Hydrogen
    ∧ 1 ≤ charged_count (⟨7, [true], false, true⟩ : PlanetState).cells
    ∧ (handle_explorer_msg
        ⟨BasicResourceType.Hydrogen, RocketStrategy.EmergencyReserve, true⟩
        ⟨7, [true], false, true⟩ ⟨[BasicResourceType.Hydrogen], fun _ => true⟩
        ⟨[]⟩ (ExplorerToPlanet.GenerateResourceRequest 0
          BasicResourceType.Hydrogen)).1 = none := by
  decide

/-- C7 amended: `GenerateResourceRequest(t)` yields a reply iff the planet's
authorized basic resource equals `t`, at least one cell is charged, and it is
not the case that the strategy is EmergencyReserve with true charged count at
most one; when no reply is produced the planet state is unchanged. -/
theorem c7_generate_reply_iff (ai : PlanetCoreThinkingModel) (s : PlanetState)
    (generator : Generator) (combinator : Combinator) (eid : Nat)
    (t : BasicResourceType) :
    (((handle_explorer_msg ai s generator combinator
        (ExplorerToPlanet.GenerateResourceRequest eid t)).1.isSome = true ↔
      (ai.basic_resource = t ∧ 1 ≤ charged_count s.cells ∧
        ¬(ai.rocket_strategy = RocketStrategy.EmergencyReserve ∧
          charged_count s.cells ≤ 1)))
    ∧ ((handle_explorer_msg ai s generator combinator
        (ExplorerToPlanet.GenerateResourceRequest eid t)).1 = none →
        (handle_explorer_msg ai s generator combinator
          (ExplorerToPlanet.GenerateResourceRequest eid t)).2 = s)) := by
  constructor
  · simp only [handle_explorer_msg]
    split
    · rename_i hgate
      simp [hgate.1, hgate.2]
    · rename_i hgate
      rcases hfc : s.full_cell with _ | i
      · have h0 : charged_count s.cells = 0 := (full_cell_idx_none_iff s.cells).1 hfc
        simp [hfc, h0]
      · have h1 : 1 ≤ charged_count s.cells := by
          by_contra h
          have h0 : charged_count s.cells = 0 := by omega
          rw [← full_cell_idx_none_iff] at h0
          unfold PlanetState.full_cell at hfc
          rw [h0] at hfc
          cases hfc
        cases hbr : ai.basic_resource <;> cases t <;>
          simp_all [hfc, Generator.make_oxygen, Generator.make_hydrogen,
            Generator.make_carbon, Generator.make_silicon, Generator.make]
  · simp only [handle_explorer_msg]
    split
    · intro _
      rfl
    · rcases hfc : s.full_cell with _ | i
      · simp [hfc]
      · cases hbr : ai.basic_resource <;> cases t <;>
          simp_all [hfc, Generator.make_oxygen, Generator.make_hydrogen,
            Generator.make_carbon, Generator.make_silicon, Generator.make]

/-- C7 witness: a Default-strategy Hydrogen planet with one charged cell
does reply to a matching request. -/
theorem c7_witness :
    (handle_explorer_msg ⟨BasicResourceType.Hydrogen, RocketStrategy.Default, true⟩
      ⟨7, [true], false, true⟩ ⟨[BasicResourceType.Hydrogen], fun _ => true⟩ ⟨[]⟩
      (ExplorerToPlanet.GenerateResourceRequest 0
        BasicResourceType.Hydrogen)).1.isSome = true :=
  (c7_generate_reply_iff ⟨BasicResourceType.Hydrogen, RocketStrategy.Default, true⟩
    ⟨7, [true], false, true⟩ ⟨[BasicResourceType.Hydrogen], fun _ => true⟩ ⟨[]⟩
    0 BasicResourceType.Hydrogen).1.mpr ⟨rfl, by decide, by decide⟩

/-- C3: asteroid handling is guarded by `can_have_rocket` (if false, no
rocket is returned and nothing changes); under Default one rocket build is
attempted first; if no rocket exists afterward the payload is `none`;
otherwise the rocket is taken and returned, and under Safe or
EmergencyReserve a rebuild from a remaining charged cell is attempted before
replying (and under Disabled or Default it is not). -/
theorem c3_asteroid_policy (ai : PlanetCoreThinkingModel) (s : PlanetState) :
    ((s.can_have_rocket = false → handle_asteroid ai s = (none, s))
    ∧ (s.can_have_rocket = true → ai.rocket_strategy = RocketStrategy.Default →
        s.has_rocket = false → s.full_cell = none →
        handle_asteroid ai s = (none, s))
    ∧ (∀ i, s.can_have_rocket = true → ai.rocket_strategy = RocketStrategy.Default →
        s.has_rocket = false → s.full_cell = some i →
        (handle_asteroid ai s).1 = some Rocket.mk)
    ∧ (s.can_have_rocket = true → ai.rocket_strategy ≠ RocketStrategy.Default →
        s.has_rocket = false → handle_asteroid ai s = (none, s))
    ∧ (s.can_have_rocket = true → s.has_rocket = true →
        (handle_asteroid ai s).1 = some Rocket.mk)
    ∧ (s.can_have_rocket = true → s.has_rocket = true →
        (ai.rocket_strategy = RocketStrategy.Safe ∨
          ai.rocket_strategy = RocketStrategy.EmergencyReserve) →
        1 ≤ charged_count s.cells →
        ((handle_asteroid ai s).2).has_rocket = true)
    ∧ (s.can_have_rocket = true → s.has_rocket = true →
        (ai.rocket_strategy = RocketStrategy.Disabled ∨
          ai.rocket_strategy = RocketStrategy.Default) →
        ((handle_asteroid ai s).2).has_rocket = false)) := by
  refine ⟨fun hc => ?_, fun hc hd hr hfc => ?_, fun i hc hd hr hfc => ?_,
    fun hc hnd hr => ?_, fun hc hr => ?_, fun hc hr hstrat hcount => ?_,
    fun hc hr hstrat => ?_⟩
  · unfold handle_asteroid
    rw [if_pos hc]
  · unfold handle_asteroid
    simp [hc, hd, try_build_rocket, hfc, hr]
  · have hb := try_build_rocket_builds s hc hr i hfc
    unfold handle_asteroid
    simp [hc, hd, hb, PlanetState.take_rocket]
  · unfold handle_asteroid
    simp [hc, hnd, hr]
  · have h1 := try_build_rocket_of_has_rocket s hr
    unfold handle_asteroid
    simp [hc, hr, h1, PlanetState.take_rocket, ite_self]
  · obtain ⟨i, hi⟩ := full_cell_idx_isSome_of_charged s.cells hcount
    have h2 := try_build_rocket_builds { s with has_rocket := false }
      (by simp [hc]) rfl i (by simpa [PlanetState.full_cell] using hi)
    rw [hc] at h2
    simp at h2
    unfold handle_asteroid
    rcases hstrat with h | h <;>
      simp [hc, h, hr, PlanetState.take_rocket, h2]
  · have h1 := try_build_rocket_of_has_rocket s hr
    unfold handle_asteroid
    rcases hstrat with h | h <;>
      simp [hc, h, hr, h1, PlanetState.take_rocket]

/-- C3 witness: a Safe planet holding a rocket and one charged cell yields
the rocket on an asteroid and immediately rebuilds. -/
theorem c3_witness :
    (handle_asteroid ⟨BasicResourceType.Hydrogen, RocketStrategy.Safe, true⟩
      ⟨1, [true], true, true⟩).1 = some Rocket.mk
    ∧ ((handle_asteroid ⟨BasicResourceType.Hydrogen, RocketStrategy.Safe, true⟩
      ⟨1, [true], true, true⟩).2).has_rocket = true :=
  ⟨(c3_asteroid_policy ⟨BasicResourceType.Hydrogen, RocketStrategy.Safe, true⟩
      ⟨1, [true], true, true⟩).2.2.2.2.1 rfl rfl,
   (c3_asteroid_policy ⟨BasicResourceType.Hydrogen, RocketStrategy.Safe, true⟩
      ⟨1, [true], true, true⟩).2.2.2.2.2.1 rfl rfl (Or.inl rfl) (by decide)⟩

theorem saturated_nonempty_full_cell (s : PlanetState)
    (hsat : charge_list s.cells = none) (hne : s.cells ≠ []) :
    s.full_cell = some 0 ∧ s.cells.set 0 true = s.cells := by
  have hall := (charge_list_none_iff s.cells).1 hsat
  rcases hcl : s.cells with _ | ⟨c, t⟩
  · exact absurd hcl hne
  · have hct : c = true := hall c (by rw [hcl]; exact List.mem_cons_self c t)
    subst hct
    constructor
    · unfold PlanetState.full_cell
      rw [hcl]
      rfl
    · rfl

/-- C4: when a Sunray arrives on a saturated bank (`charge_cell` returns a
leftover) and the strategy permits building, no rocket exists and the planet
may have one, the handler builds a rocket and recharges the vacated cell
with the leftover Sunray — the final state differs from the initial one only
in `has_rocket`, so the charged count is preserved; when the build is
impossible (a rocket already exists or the planet type forbids rockets) the
leftover is dropped, the state is unchanged, and the ack is still sent. -/
theorem c4_saturated_sunray_build_recharge (ai : PlanetCoreThinkingModel)
    (s : PlanetState) (ray : Sunray)
    (hsat : charge_list s.cells = none) :
    ((can_build ai.rocket_strategy = true → s.has_rocket = false →
        s.can_have_rocket = true → s.cells ≠ [] →
        handle_orchestrator_msg ai s (OrchestratorToPlanet.Sunray ray) =
          (some (PlanetToOrchestrator.SunrayAck s.id),
            { s with has_rocket := true }))
    ∧ ((s.has_rocket = true ∨ s.can_have_rocket = false) →
        handle_orchestrator_msg ai s (OrchestratorToPlanet.Sunray ray) =
          (some (PlanetToOrchestrator.SunrayAck s.id), s))) := by
  have hcc : s.charge_cell ray = (some ray, s) := by
    unfold PlanetState.charge_cell
    rw [hsat]
  constructor
  · intro hcb hr hc hne
    obtain ⟨hfc, hset⟩ := saturated_nonempty_full_cell s hsat hne
    have hb := try_build_rocket_builds s hc hr 0 hfc
    simp only [handle_orchestrator_msg, hcc]
    simp [hcb, hr, hc, hb, PlanetState.cell_charge, List.set_set, hset]
  · intro hdisj
    simp only [handle_orchestrator_msg, hcc]
    rcases hdisj with h | h <;> simp [h]

/-- C4 witness: a Safe planet with a fully charged two-cell bank and no
rocket handles a Sunray by building a rocket and recharging the vacated
cell: the bank stays fully charged. -/
theorem c4_witness :
    handle_orchestrator_msg ⟨BasicResourceType.Hydrogen, RocketStrategy.Safe, true⟩
      ⟨3, [true, true], false, true⟩ (OrchestratorToPlanet.Sunray ⟨9⟩) =
      (some (PlanetToOrchestrator.SunrayAck 3), ⟨3, [true, true], true, true⟩) :=
  (c4_saturated_sunray_build_recharge
    ⟨BasicResourceType.Hydrogen, RocketStrategy.Safe, true⟩
    ⟨3, [true, true], false, true⟩ ⟨9⟩ (by decide)).1 rfl rfl rfl (by decide)

theorem charge_list_rep (k : Nat) : ∀ m : Nat,
    charge_list (List.replicate m true ++ List.replicate (k + 1) false) =
      some (List.replicate (m + 1) true ++ List.replicate k false) := by
  intro m
  induction m with
  | zero => simp [charge_list, List.replicate_succ]
  | succ m ih =>
    simp [List.replicate_succ, charge_list]
    simpa [List.replicate_succ] using ih

theorem charge_list_rep_true (m : Nat) :
    charge_list (List.replicate m true) = none := by
  rw [charge_list_none_iff]
  intro c hc
  exact List.eq_of_mem_replicate hc

theorem charged_count_rep_true (m : Nat) :
    charged_count (List.replicate m true) = m := by
  induction m with
  | zero => rfl
  | succ m ih => simp [List.replicate_succ, charged_count, ih, Nat.add_comm]

theorem sendSunray_rocket_charge (ai : PlanetCoreThinkingModel)
    (s : PlanetState) (cs : List Bool) (h : s.has_rocket = true)
    (hcl : charge_list s.cells = some cs) :
    sendSunray ai s = { s with cells := cs } := by
  unfold sendSunray handle_orchestrator_msg PlanetState.charge_cell
  rw [hcl]
  simp [h]

theorem sendSunray_rocket_full (ai : PlanetCoreThinkingModel)
    (s : PlanetState) (h : s.has_rocket = true)
    (hcl : charge_list s.cells = none) :
    sendSunray ai s = s := by
  unfold sendSunray handle_orchestrator_msg PlanetState.charge_cell
  rw [hcl]
  simp [h]

theorem sendSunrays_fill (ai : PlanetCoreThinkingModel) (pid : Nat) (chr : Bool) :
    ∀ (j m r : Nat),
      sendSunrays ai j
          ⟨pid, List.replicate m true ++ List.replicate (j + r) false, true, chr⟩ =
        ⟨pid, List.replicate (m + j) true ++ List.replicate r false, true, chr⟩ := by
  intro j
  induction j with
  | zero => intro m r; simp [sendSunrays]
  | succ j ih =>
    intro m r
    have hcl : charge_list
        (List.replicate m true ++ List.replicate (j + 1 + r) false) =
        some (List.replicate (m + 1) true ++ List.replicate (j + r) false) := by
      rw [show j + 1 + r = (j + r) + 1 by omega]
      exact charge_list_rep (j + r) m
    show sendSunrays ai j (sendSunray ai _) = _
    rw [sendSunray_rocket_charge ai _ _ rfl hcl]
    rw [show m + (j + 1) = (m + 1) + j by omega]
    exact ih (m + 1) r

theorem sendSunrays_saturated (ai : PlanetCoreThinkingModel) (pid : Nat)
    (chr : Bool) (m : Nat) : ∀ j : Nat,
    sendSunrays ai j ⟨pid, List.replicate m true, true, chr⟩ =
      ⟨pid, List.replicate m true, true, chr⟩ := by
  intro j
  induction j with
  | zero => rfl
  | succ j ih =>
    show sendSunrays ai j (sendSunray ai _) = _
    rw [sendSunray_rocket_full ai _ rfl (charge_list_rep_true m)]
    exact ih

theorem sendSunrays_add (ai : PlanetCoreThinkingModel) :
    ∀ (a b : Nat) (s : PlanetState),
      sendSunrays ai (a + b) s = sendSunrays ai b (sendSunrays ai a s) := by
  intro a
  induction a with
  | zero => intro b s; simp [sendSunrays]
  | succ a ih =>
    intro b s
    rw [show a + 1 + b = (a + b) + 1 by omega]
    show sendSunrays ai (a + b) (sendSunray ai s) = _
    rw [ih b (sendSunray ai s)]
    rfl

theorem sendSunray_fresh (ai : PlanetCoreThinkingModel)
    (hcb : can_build ai.rocket_strategy = true) (pid k : Nat) :
    sendSunray ai ⟨pid, List.replicate (k + 1) false, false, true⟩ =
      ⟨pid, List.replicate (k + 1) false, true, true⟩ := by
  have hcl : charge_list (List.replicate (k + 1) false) =
      some (true :: List.replicate k false) := by
    have h := charge_list_rep k 0
    simpa using h
  have hb := try_build_rocket_builds
    ⟨pid, true :: List.replicate k false, false, true⟩ rfl rfl 0 rfl
  unfold sendSunray handle_orchestrator_msg PlanetState.charge_cell
  rw [hcl]
  simp only [hcb]
  simp [hb, List.replicate_succ]

/-- C1 counterexample: under Safe, starting from an empty two-cell bank with
no rocket, the very first Sunray is absorbed by the bank (`charge_cell`
returns no leftover, so it is not the saturating Sunray) and yet a rocket is
built on it — refuting the claim that the single rocket build occurs on the
saturating Sunray that a full bank cannot absorb. -/
theorem c1_counterexample :
    (PlanetState.charge_cell ⟨1, [false, false], false, true⟩ ⟨1⟩).1 = none
    ∧ ((handle_orchestrator_msg
        ⟨BasicResourceType.Hydrogen, RocketStrategy.Safe, true⟩
        ⟨1, [false, false], false, true⟩
        (OrchestratorToPlanet.Sunray ⟨1⟩)).2).has_rocket = true := by
  decide

/-- C1 amended: under Safe, starting from an empty bank of capacity `n` with
no rocket, the single rocket build occurs on the first Sunray (which charges
a cell that the build immediately consumes); each later Sunray only charges
a cell while the rocket persists, reaching saturation after `n + 1` Sunrays;
the saturating Sunray `n + 2` triggers no further build and its leftover is
dropped, leaving the state — and hence the charged count `n` — exactly as
before saturation. -/
theorem c1_safe_single_build_on_first_sunray (ai : PlanetCoreThinkingModel)
    (hsafe : ai.rocket_strategy = RocketStrategy.Safe) (pid n : Nat)
    (hn : 1 ≤ n) :
    (sendSunrays ai 1 ⟨pid, List.replicate n false, false, true⟩ =
        ⟨pid, List.replicate n false, true, true⟩
    ∧ (∀ j r, j + r = n →
        sendSunrays ai (j + 1) ⟨pid, List.replicate n false, false, true⟩ =
          ⟨pid, List.replicate j true ++ List.replicate r false, true, true⟩)
    ∧ sendSunrays ai (n + 2) ⟨pid, List.replicate n false, false, true⟩ =
        sendSunrays ai (n + 1) ⟨pid, List.replicate n false, false, true⟩
    ∧ charged_count ((sendSunrays ai (n + 2)
        ⟨pid, List.replicate n false, false, true⟩).cells) = n) := by
  obtain ⟨k, rfl⟩ : ∃ k, n = k + 1 := ⟨n - 1, by omega⟩
  have hcb : can_build ai.rocket_strategy = true := by rw [hsafe]; rfl
  have h1 : sendSunrays ai 1 ⟨pid, List.replicate (k + 1) false, false, true⟩ =
      ⟨pid, List.replicate (k + 1) false, true, true⟩ := by
    show sendSunrays ai 0 (sendSunray ai _) = _
    rw [sendSunray_fresh ai hcb pid k]
    rfl
  have h2 : ∀ j r, j + r = k + 1 →
      sendSunrays ai (j + 1) ⟨pid, List.replicate (k + 1) false, false, true⟩ =
        ⟨pid, List.replicate j true ++ List.replicate r false, true, true⟩ := by
    intro j r hjr
    show sendSunrays ai j (sendSunray ai _) = _
    rw [sendSunray_fresh ai hcb pid k]
    have hf := sendSunrays_fill ai pid true j 0 r
    rw [hjr] at hf
    simpa using hf
  have h3 : sendSunrays ai (k + 1 + 1)
      ⟨pid, List.replicate (k + 1) false, false, true⟩ =
      ⟨pid, List.replicate (k + 1) true, true, true⟩ := by
    have h := h2 (k + 1) 0 (by omega)
    simpa using h
  have h4 : sendSunrays ai (k + 1 + 2)
      ⟨pid, List.replicate (k + 1) false, false, true⟩ =
      ⟨pid, List.replicate (k + 1) true, true, true⟩ := by
    have hsplit := sendSunrays_add ai (k + 1 + 1) 1
      ⟨pid, List.replicate (k + 1) false, false, true⟩
    rw [show k + 1 + 1 + 1 = k + 1 + 2 by omega] at hsplit
    rw [hsplit, h3]
    exact sendSunrays_saturated ai pid true (k + 1) 1
  exact ⟨h1, h2, h4.trans h3.symm, by rw [h4]; simp [charged_count_rep_true]⟩

/-- C1 witness: for capacity two, the first Sunray builds the rocket and
empties the bank again, and after the saturating fourth Sunray the charged
count is still two. -/
theorem c1_witness :
    sendSunrays ⟨BasicResourceType.Hydrogen, RocketStrategy.Safe, true⟩ 1
        ⟨0, List.replicate 2 false, false, true⟩ =
      ⟨0, List.replicate 2 false, true, true⟩
    ∧ charged_count ((sendSunrays
        ⟨BasicResourceType.Hydrogen, RocketStrategy.Safe, true⟩ 4
        ⟨0, List.replicate 2 false, false, true⟩).cells) = 2 :=
  ⟨(c1_safe_single_build_on_first_sunray
      ⟨BasicResourceType.Hydrogen, RocketStrategy.Safe, true⟩ rfl 0 2
      (by decide)).1,
   (c1_safe_single_build_on_first_sunray
      ⟨BasicResourceType.Hydrogen, RocketStrategy.Safe, true⟩ rfl 0 2
      (by decide)).2.2.2⟩

end Planet
